import Mathlib

/-!
Verification of the prompt-construction, identity-parsing and
conversational-context logic of the Critique application (app.py).

The Python source is shallowly embedded:

* prompt builders (`build_structured_prompt`, the prompt assembled inside
  `generate_chat_response`) become pure `String` functions; the f-string
  templates are transcribed literally, split at the interpolation holes
  (and, for the critique template, at the section headings);
* the regex helpers (`_extract_tag` with `re.DOTALL | re.IGNORECASE` and a
  non-greedy group, and the ordered developer-name heuristics of
  `extract_developer_name`) become executable scanners over `List Char`
  that implement the leftmost-match/backtracking semantics of the specific
  patterns used by the source;
* the Streamlit session state (`messages`, `last_result`, `last_intake`,
  `notes`) becomes an explicit `SessionState` record, and the UI event
  handlers become state-transition functions;
* the GenAI endpoint is modelled as an explicit outcome parameter
  (`Except`/`Option`): a raised exception is an `error`/failure outcome,
  which the wrappers convert to an inline error string exactly as the
  `try/except` blocks of the source do.
-/

set_option maxRecDepth 100000

set_option maxHeartbeats 1000000

namespace Critique

/-! ## String infrastructure -/

/-- Substring containment: `needle` occurs contiguously inside `hay`. -/
def strContains (hay needle : String) : Prop :=
  ∃ a b : String, hay = a ++ needle ++ b

theorem strExt {a b : String} (h : a.data = b.data) : a = b :=
  congrArg String.mk h

theorem strAssoc (a b c : String) : a ++ b ++ c = a ++ (b ++ c) := by
  apply strExt
  show (a.data ++ b.data) ++ c.data = a.data ++ (b.data ++ c.data)
  exact List.append_assoc a.data b.data c.data

theorem strAppendNil (a : String) : a ++ "" = a := by
  apply strExt
  show a.data ++ [] = a.data
  exact List.append_nil a.data

theorem strNilAppend (a : String) : "" ++ a = a := rfl

theorem strContains_self (a : String) : strContains a a :=
  ⟨"", "", by rw [strNilAppend, strAppendNil]⟩

theorem strContains_right {b n : String} (a : String) (h : strContains b n) :
    strContains (a ++ b) n := by
  obtain ⟨x, y, hxy⟩ := h
  exact ⟨a ++ x, y, by rw [hxy]; simp only [strAssoc]⟩

theorem strContains_left {a n : String} (b : String) (h : strContains a n) :
    strContains (a ++ b) n := by
  obtain ⟨x, y, hxy⟩ := h
  exact ⟨x, y ++ b, by rw [hxy]; simp only [strAssoc]⟩

theorem strContains_empty (a : String) : strContains a "" :=
  ⟨"", a, by rw [strNilAppend, strNilAppend]⟩

/-- Python `"sep".join(xs)`. -/
def pyJoin (sep : String) : List String → String
  | [] => ""
  | [x] => x
  | x :: y :: rest => x ++ sep ++ pyJoin sep (y :: rest)

theorem pyJoin_mem {sep x : String} {xs : List String} (h : x ∈ xs) :
    strContains (pyJoin sep xs) x := by
  induction xs with
  | nil => cases h
  | cons y ys ih =>
    cases ys with
    | nil =>
      rcases List.mem_cons.mp h with rfl | h
      · exact strContains_self x
      · cases h
    | cons z zs =>
      rcases List.mem_cons.mp h with rfl | h
      · exact strContains_left _ (strContains_left _ (strContains_self x))
      · exact strContains_right _ (ih h)

theorem pyJoin_snoc_suffix (sep : String) (ws : List String) (x : String) :
    ∃ pre : String, pyJoin sep (ws ++ [x]) = pre ++ x := by
  induction ws with
  | nil => exact ⟨"", by rw [strNilAppend]; rfl⟩
  | cons w ws ih =>
    cases ws with
    | nil => exact ⟨w ++ sep, rfl⟩
    | cons v vs =>
      obtain ⟨pre, hpre⟩ := ih
      refine ⟨w ++ sep ++ pre, ?_⟩
      show w ++ sep ++ pyJoin sep ((v :: vs) ++ [x]) = w ++ sep ++ pre ++ x
      rw [hpre, strAssoc, strAssoc, strAssoc]

/-! ## Data model

`FormData` mirrors the `form_data` dict built by the intake-form handler
(keys stage/artifact/audience/goal/constraints/focus/work), `Turn` mirrors a
chat message dict `{"role": ..., "content": ...}`, `NoteEntry` mirrors an
entry of `st.session_state.notes`, and `SessionState` carries the
session-state keys the claims are about. -/

structure FormData where
  stage : String
  artifact : String
  audience : String
  goal : String
  constraints : String
  focus : String
  work : String
deriving DecidableEq

structure Turn where
  role : String
  content : String
deriving DecidableEq

structure NoteEntry where
  timestamp : String
  stage : String
  focus : String
  result : String
deriving DecidableEq

structure SessionState where
  messages : List Turn
  last_result : Option String
  last_intake : Option FormData
  notes : List NoteEntry
deriving DecidableEq

/-! ## Notes export (Notes tab, app.py lines 565-567) -/

/-- One exported entry: `f"[{n['timestamp']}] {n['stage']} • {n['focus']}\n\n{n['result']}"`. -/
def fmtNote (n : NoteEntry) : String :=
  "[" ++ n.timestamp ++ "] " ++ n.stage ++ " • " ++ n.focus ++ "\n\n" ++ n.result

/-- Embedding of `export_text = "\n\n---\n\n".join([... for n in st.session_state.notes])`. -/
def export_text (notes : List NoteEntry) : String :=
  pyJoin ("\n\n---\n\n") (notes.map fmtNote)

/-- Clear-chat button handler (app.py lines 537-540): only
`st.session_state.messages` is reset to `[]`. -/
def clear_chat (s : SessionState) : SessionState :=
  { s with messages := [] }

/-- C8: the clear operation empties only the conversation turn sequence; the
notes list, the last-result pointer and the last-intake pointer are
unchanged. -/
theorem claim8_clear_chat_frame (s : SessionState) :
    (clear_chat s).messages = [] ∧ (clear_chat s).notes = s.notes ∧
      (clear_chat s).last_result = s.last_result ∧
      (clear_chat s).last_intake = s.last_intake :=
  ⟨rfl, rfl, rfl, rfl⟩

/-- C7: the notes export joins all entries oldest first with the literal
separator `"\n\n---\n\n"` between entries, each entry formatted exactly as
`"[<timestamp>] <stage> • <focus>\n\n<result>"`. -/
theorem claim7_export_join (n : NoteEntry) (ns : List NoteEntry) :
    export_text [] = "" ∧
      export_text [n] =
        "[" ++ n.timestamp ++ "] " ++ n.stage ++ " • " ++ n.focus ++ "\n\n" ++ n.result ∧
      (ns ≠ [] →
        export_text (n :: ns) =
          ("[" ++ n.timestamp ++ "] " ++ n.stage ++ " • " ++ n.focus ++ "\n\n" ++ n.result) ++
            "\n\n---\n\n" ++ export_text ns) := by
  refine ⟨rfl, rfl, fun h => ?_⟩
  cases ns with
  | nil => exact absurd rfl h
  | cons m ms => rfl

def noteA : NoteEntry :=
  ⟨"2024-01-01T00:00:00Z", "Early ideation", "focus A", "result A"⟩

def noteB : NoteEntry :=
  ⟨"2024-01-02T00:00:00Z", "Late stage", "focus B", "result B"⟩

theorem claim7_witness :
    (([noteB] : List NoteEntry) ≠ []) ∧
      export_text [noteA, noteB] =
        ("[" ++ noteA.timestamp ++ "] " ++ noteA.stage ++ " • " ++ noteA.focus ++ "\n\n" ++
            noteA.result) ++
          "\n\n---\n\n" ++ export_text [noteB] :=
  ⟨by simp, (claim7_export_join noteA [noteB]).2.2 (by simp)⟩

/-! ## Form-submission handler (Crit Session tab, app.py lines 450-473) -/

/-- Python `focus[:80] + ("…" if len(focus) > 80 else "")`. -/
def truncFocus (focus : String) : String :=
  String.mk (focus.data.take 80) ++ (if 80 < focus.data.length then "…" else "")

/-- Note entry appended by the submit handler; the `datetime.utcnow()`
timestamp is passed in as `now`. -/
def mkNote (now : String) (fd : FormData) (result : String) : NoteEntry :=
  ⟨now, fd.stage, truncFocus fd.focus, result⟩

/-- Embedding of the submit branch: sets `last_intake` to the form data,
`last_result` to the generated text, and appends one note entry. -/
def submit_record (s : SessionState) (now : String) (fd : FormData) (result : String) :
    SessionState :=
  { s with
    last_intake := some fd
    last_result := some result
    notes := s.notes ++ [mkNote now fd result] }

/-- C6: recording a result replaces the last-intake/last-result pointers and
appends one note whose focus is the first 80 characters of the intake focus
plus an ellipsis marker exactly when the focus is longer than 80 characters;
run twice, last-result holds only the second result while the notes sequence
keeps both entries in append order and the export includes both. -/
theorem claim6_record_result (s : SessionState) (n1 : String) (fd1 : FormData) (r1 : String)
    (n2 : String) (fd2 : FormData) (r2 : String) :
    (submit_record (submit_record s n1 fd1 r1) n2 fd2 r2).last_result = some r2 ∧
      (submit_record (submit_record s n1 fd1 r1) n2 fd2 r2).last_intake = some fd2 ∧
      (submit_record s n1 fd1 r1).last_result = some r1 ∧
      (submit_record (submit_record s n1 fd1 r1) n2 fd2 r2).notes =
        s.notes ++ [mkNote n1 fd1 r1, mkNote n2 fd2 r2] ∧
      (mkNote n1 fd1 r1).focus =
        String.mk (fd1.focus.data.take 80) ++
          (if 80 < fd1.focus.data.length then "…" else "") ∧
      (fd1.focus.data.length ≤ 80 → (mkNote n1 fd1 r1).focus = fd1.focus) ∧
      strContains (export_text (submit_record (submit_record s n1 fd1 r1) n2 fd2 r2).notes)
        (fmtNote (mkNote n1 fd1 r1)) ∧
      strContains (export_text (submit_record (submit_record s n1 fd1 r1) n2 fd2 r2).notes)
        (fmtNote (mkNote n2 fd2 r2)) := by
  refine ⟨rfl, rfl, rfl, by simp [submit_record], rfl, ?_, ?_, ?_⟩
  · intro h
    show truncFocus fd1.focus = fd1.focus
    unfold truncFocus
    rw [List.take_of_length_le h, if_neg (by omega : ¬ 80 < fd1.focus.data.length),
      strAppendNil]
  · exact pyJoin_mem (List.mem_map_of_mem _ (by simp [submit_record]))
  · exact pyJoin_mem (List.mem_map_of_mem _ (by simp [submit_record]))

def emptyState : SessionState := ⟨[], none, none, []⟩

def fdShort : FormData :=
  ⟨"Mid-fidelity", "Wireframe / layout", "students", "clarity", "time", "hierarchy",
    "two wireframes"⟩

theorem claim6_witness :
    fdShort.focus.data.length ≤ 80 ∧
      (mkNote ("2024-01-01T00:00:00Z") fdShort ("result one")).focus = fdShort.focus :=
  ⟨by decide,
    (claim6_record_result emptyState ("2024-01-01T00:00:00Z") fdShort ("result one")
          ("2024-01-02T00:00:00Z") fdShort ("result two")).2.2.2.2.2.1 (by decide)⟩

/-! ## Generation wrappers and their error handling (app.py lines 161-177
and 232-242)

The GenAI call itself is an external effect; its outcome is passed
explicitly.  `Except.error e` stands for a raised transport/auth/quota
exception with message `str(e)`; for the streaming call, `chunks` are the
chunk texts produced before the iterator ends (each `Option String` is a
`chunk.text`, `none` standing for a chunk with no text), and `failure`
is the exception, if any, that ends the stream. -/

/-- Python whitespace set used by `str.strip()` (ASCII part). -/
def pyIsSpace (c : Char) : Bool :=
  c = ' ' || c = '\t' || c = '\n' || c = '\r' || c = '\x0b' || c = '\x0c'

def pyStripWS (l : List Char) : List Char :=
  ((l.dropWhile pyIsSpace).reverse.dropWhile pyIsSpace).reverse

/-- Python `s.strip()`. -/
def pyStrip (s : String) : String := String.mk (pyStripWS s.data)

/-- Embedding of `generate_from_form`: the `try/except` around the endpoint
call is the `match` on the outcome; `Except.ok t` carries `response.text`
(`none` when the SDK returns no text, mirroring `response.text or ""`). -/
def generate_from_form (clientOk : Bool) (outcome : Except String (Option String)) : String :=
  if !clientOk then "AI initialization failed. Check GEMINI_API_KEY in Streamlit secrets."
  else
    match outcome with
    | Except.ok t => pyStrip (t.getD "")
    | Except.error e => "Error generating response: " ++ e

/-- Embedding of the `generate_chat_response` generator body after the prompt
is built: yields each truthy `chunk.text`, and on an exception yields the
interpolated error string instead of raising. -/
def generate_chat_stream (clientOk : Bool) (chunks : List (Option String))
    (failure : Option String) : List String :=
  if !clientOk then ["AI initialization failed. Check GEMINI_API_KEY in Streamlit secrets."]
  else
    (chunks.filterMap fun c =>
      match c with
      | some t => if t = "" then none else some t
      | none => none) ++
      (match failure with
       | some e => ["Error generating response: " ++ e]
       | none => [])

/-- Prefix relation on strings. -/
def strStartsWith (hay needle : String) : Prop := needle.data <+: hay.data

/-- C9: on a generation failure the one-shot wrapper returns a string
beginning with "Error generating" instead of propagating the exception, and
the streaming wrapper yields such an error string as its final output;
both are total functions of the outcome, so the session never crashes. -/
theorem claim9_generation_errors (e : String) (chunks : List (Option String)) :
    generate_from_form true (Except.error e) = "Error generating response: " ++ e ∧
      strStartsWith (generate_from_form true (Except.error e)) ("Error generating") ∧
      (generate_chat_stream true chunks (some e)).getLast? =
        some ("Error generating response: " ++ e) ∧
      strStartsWith ("Error generating response: " ++ e) ("Error generating") := by
  have hpre : strStartsWith ("Error generating response: " ++ e) ("Error generating") := by
    show ("Error generating" : String).data <+:
      ("Error generating response: " : String).data ++ e.data
    exact List.IsPrefix.trans (by decide) (List.prefix_append _ _)
  exact ⟨rfl, hpre, List.getLast?_concat _, hpre⟩

/-! ## Follow-up prompt assembly (app.py lines 180-230)

The pure part of `generate_chat_response`: the `history_text`,
`intake_text` and `full_prompt` computations.  The f-string template is
transcribed literally, split at the interpolation holes (and once inside
the closing sentence, so that a lemma can name the text that follows the
user-message hole). -/

/-- One line of `history_text`:
`f"{'User' if m['role']=='user' else 'Assistant'}: {m['content']}"`. -/
def renderTurn (m : Turn) : String :=
  (if m.role = "user" then "User" else "Assistant") ++ ": " ++ m.content

/-- Python `chat_history[-10:]`. -/
def historyWindow (chat_history : List Turn) : List Turn :=
  chat_history.drop (chat_history.length - 10)

/-- Embedding of `history_text = "\n".join([...])`. -/
def historyText (chat_history : List Turn) : String :=
  pyJoin ("\n") ((historyWindow chat_history).map renderTurn)

/-- Embedding of `intake_text` (empty when `last_intake` is falsy). -/
def intakeText (last_intake : Option FormData) : String :=
  match last_intake with
  | none => ""
  | some fd =>
    "Design stage: " ++ fd.stage ++
      "\nArtifact type: " ++ fd.artifact ++
      "\nAudience/users: " ++ fd.audience ++
      "\nGoal: " ++ fd.goal ++
      "\nConstraints: " ++ fd.constraints ++
      "\nCritique focus: " ++ fd.focus

/-- Python `x if x else dflt` for a string. -/
def pyOrStr (x dflt : String) : String := if x = "" then dflt else x

/-- Python `x if x else dflt` for an optional string (`None` and `""` are
falsy). -/
def pyOrOpt (x : Option String) (dflt : String) : String :=
  match x with
  | none => dflt
  | some s => if s = "" then dflt else s

/-- Embedding of the `full_prompt` f-string of `generate_chat_response`. -/
def followup_prompt (identity_context user_input : String) (chat_history : List Turn)
    (last_intake : Option FormData) (last_result : Option String) : String :=
  "SYSTEM IDENTITY & GUIDELINES:\n" ++ identity_context ++
    "\n\nCONTEXT:\nYou are continuing an ongoing critique dialogue.\nRules to enforce:\n- Questions before statements.\n- No evaluative language (\"good/bad/better/worse\").\n- No final prescriptions; suggest experiments and lenses.\n- User retains authorship.\n\nLAST INTAKE (if any):\n" ++
    pyOrStr (intakeText last_intake) ("No structured intake provided yet.") ++
    "\n\nLAST CRITIQUE (if any):\n" ++
    pyOrOpt last_result ("No prior critique yet.") ++
    "\n\nCONVERSATION HISTORY:\n" ++
    historyText chat_history ++
    "\n\nUSER MESSAGE:\n" ++
    user_input ++
    "\n\nRespond in Markdown." ++
    " Keep it concise and reflective. If the user asks for the Rules/identity, briefly explain your role and stop.\n"

/-- C2: the follow-up prompt contains a serialized view of the last intake
(or the explicit "none provided" marker), the prior critique verbatim (or
the explicit "no prior critique" marker), and the trailing window of at most
the 10 most recent turns in append order rendered via `renderTurn`; the
window is a suffix of the history and never has more than
`min 10 totalTurns` entries. -/
theorem claim2_followup_prompt (id ui : String) (hist : List Turn)
    (li : Option FormData) (lr : Option String) :
    (historyWindow hist).length = min 10 hist.length ∧
      historyWindow hist <:+ hist ∧
      strContains (followup_prompt id ui hist li lr) (historyText hist) ∧
      (match li with
       | none =>
         strContains (followup_prompt id ui hist li lr) ("No structured intake provided yet.")
       | some fd => strContains (followup_prompt id ui hist li lr) (intakeText (some fd))) ∧
      (match lr with
       | none => strContains (followup_prompt id ui hist li lr) ("No prior critique yet.")
       | some r => strContains (followup_prompt id ui hist li lr) r) := by
  refine ⟨?_, ?_, ?_, ?_, ?_⟩
  · simp only [historyWindow, List.length_drop]
    omega
  · exact List.drop_suffix _ _
  · simp only [followup_prompt]
    exact strContains_left _ (strContains_left _ (strContains_left _ (strContains_left _
      (strContains_right _ (strContains_self _)))))
  · cases li with
    | none =>
      show strContains (followup_prompt id ui hist none lr) ("No structured intake provided yet.")
      have hslot :
          pyOrStr (intakeText none) ("No structured intake provided yet.") =
            "No structured intake provided yet." := rfl
      simp only [followup_prompt, hslot]
      exact strContains_left _ (strContains_left _ (strContains_left _ (strContains_left _
        (strContains_left _ (strContains_left _ (strContains_left _ (strContains_left _
          (strContains_right _ (strContains_self _)))))))))
    | some fd =>
      show strContains (followup_prompt id ui hist (some fd) lr) (intakeText (some fd))
      by_cases hX : intakeText (some fd) = ""
      · rw [hX]
        exact strContains_empty _
      · have hslot :
            pyOrStr (intakeText (some fd)) ("No structured intake provided yet.") =
              intakeText (some fd) := if_neg hX
        simp only [followup_prompt, hslot]
        exact strContains_left _ (strContains_left _ (strContains_left _ (strContains_left _
          (strContains_left _ (strContains_left _ (strContains_left _ (strContains_left _
            (strContains_right _ (strContains_self _)))))))))
  · cases lr with
    | none =>
      show strContains (followup_prompt id ui hist li none) ("No prior critique yet.")
      have hslot : pyOrOpt none ("No prior critique yet.") = "No prior critique yet." := rfl
      simp only [followup_prompt, hslot]
      exact strContains_left _ (strContains_left _ (strContains_left _ (strContains_left _
        (strContains_left _ (strContains_left _ (strContains_right _
          (strContains_self _)))))))
    | some r =>
      show strContains (followup_prompt id ui hist li (some r)) r
      by_cases hr : r = ""
      · rw [hr]
        exact strContains_empty _
      · have hslot : pyOrOpt (some r) ("No prior critique yet.") = r := if_neg hr
        simp only [followup_prompt, hslot]
        exact strContains_left _ (strContains_left _ (strContains_left _ (strContains_left _
          (strContains_left _ (strContains_left _ (strContains_right _
            (strContains_self _)))))))

/-! ## Chat input handler (app.py lines 516-532)

The handler first appends the user message to `st.session_state.messages`
and then passes the full log as `chat_history`, so the new message is both
the last turn of the rendered window and the USER MESSAGE section. -/

/-- Message log after `st.session_state.messages.append({"role": "user", "content": prompt})`. -/
def chat_submit_messages (s : SessionState) (msg : String) : List Turn :=
  s.messages ++ [Turn.mk ("user") msg]

/-- Prompt built by the chat input handler. -/
def chat_submit_prompt (identity_context : String) (s : SessionState) (msg : String) : String :=
  followup_prompt identity_context msg (chat_submit_messages s msg) s.last_intake s.last_result

/-- C10: the freshly appended user message is the last entry of the rendered
10-turn window (occupying one slot of it) and is repeated in the USER
MESSAGE section, so the assembled prompt contains the message twice, in
adjacent sections. -/
theorem claim10_duplicate_user_message (id : String) (s : SessionState) (m : String) :
    (historyWindow (chat_submit_messages s m)).getLast? = some (Turn.mk ("user") m) ∧
      (historyWindow (chat_submit_messages s m)).length = min 10 (s.messages.length + 1) ∧
      strContains (chat_submit_prompt id s m)
        ("User: " ++ m ++ "\n\nUSER MESSAGE:\n" ++ m ++ "\n\nRespond in Markdown.") := by
  have hk : (s.messages ++ [Turn.mk ("user") m]).length - 10 ≤ s.messages.length := by
    simp only [List.length_append, List.length_cons, List.length_nil]
    omega
  have hwin :
      historyWindow (chat_submit_messages s m) =
        s.messages.drop ((s.messages ++ [Turn.mk ("user") m]).length - 10) ++
          [Turn.mk ("user") m] := by
    simp only [historyWindow, chat_submit_messages]
    exact List.drop_append_of_le_length hk
  refine ⟨?_, ?_, ?_⟩
  · rw [hwin]
    exact List.getLast?_concat _
  · simp only [historyWindow, chat_submit_messages, List.length_drop, List.length_append,
      List.length_cons, List.length_nil]
    omega
  · have hu : (("User" : String) ++ ": ") = "User: " := by decide
    have hrt : renderTurn (Turn.mk ("user") m) = "User: " ++ m := by
      show ((if ("user" : String) = "user" then "User" else "Assistant") ++ ": ") ++ m =
        "User: " ++ m
      rw [if_pos rfl, hu]
    obtain ⟨pre, hpre⟩ :=
      pyJoin_snoc_suffix ("\n")
        ((s.messages.drop ((s.messages ++ [Turn.mk ("user") m]).length - 10)).map renderTurn)
        (renderTurn (Turn.mk ("user") m))
    have hHT : historyText (chat_submit_messages s m) = pre ++ ("User: " ++ m) := by
      unfold historyText
      rw [hwin, List.map_append, List.map_singleton, hpre, hrt]
    simp only [chat_submit_prompt, followup_prompt]
    rw [hHT]
    refine ⟨"SYSTEM IDENTITY & GUIDELINES:\n" ++ id ++
      "\n\nCONTEXT:\nYou are continuing an ongoing critique dialogue.\nRules to enforce:\n- Questions before statements.\n- No evaluative language (\"good/bad/better/worse\").\n- No final prescriptions; suggest experiments and lenses.\n- User retains authorship.\n\nLAST INTAKE (if any):\n" ++
      pyOrStr (intakeText s.last_intake) ("No structured intake provided yet.") ++
      "\n\nLAST CRITIQUE (if any):\n" ++
      pyOrOpt s.last_result ("No prior critique yet.") ++
      "\n\nCONVERSATION HISTORY:\n" ++ pre,
      " Keep it concise and reflective. If the user asks for the Rules/identity, briefly explain your role and stop.\n", ?_⟩
    simp only [strAssoc]

/-! ## Identity parsing (app.py lines 30-63)

`_extract_tag` uses `re.search(rf"<{tag}>(.*?)</{tag}>", text,
re.DOTALL | re.IGNORECASE)`.  For this pattern, `re.search` semantics are:
the match starts at the leftmost position where the case-insensitive open
literal matches and a case-insensitive close literal occurs at or after the
end of the open literal; the non-greedy group then ends at the earliest such
close.  `searchTagAux` scans positions left to right implementing exactly
this (continuing the scan when an open literal has no close after it, as
the regex engine does). -/

/-- Case-insensitive literal match at the head of a string (ASCII case
folding via `Char.toLower`, as `re.IGNORECASE` does for these patterns). -/
def ciStarts : List Char → List Char → Bool
  | [], _ => true
  | _ :: _, [] => false
  | a :: p, b :: s => (a.toLower == b.toLower) && ciStarts p s

/-- Content before the earliest case-insensitive occurrence of `closeT`
(`none` when it never occurs): the non-greedy `(.*?)` under `re.DOTALL`. -/
def findClose (closeT : List Char) : List Char → Option (List Char)
  | [] => none
  | c :: rest =>
    if ciStarts closeT (c :: rest) then some []
    else Option.map (fun l => c :: l) (findClose closeT rest)

/-- Leftmost-match scan for `openT (.*?) closeT`. -/
def searchTagAux (openT closeT : List Char) : List Char → Option (List Char)
  | [] => none
  | c :: rest =>
    if ciStarts openT (c :: rest) then
      match findClose closeT (List.drop openT.length (c :: rest)) with
      | some content => some content
      | none => searchTagAux openT closeT rest
    else searchTagAux openT closeT rest

/-- Embedding of `_extract_tag`: the group text stripped of surrounding
whitespace, or `""` when the pattern does not match. -/
def extractTag (text tag : String) : String :=
  match searchTagAux (("<" ++ tag ++ ">").data) (("</" ++ tag ++ ">").data) text.data with
  | some content => pyStrip (String.mk content)
  | none => ""

structure IdentityParts where
  role : String
  goal : String
  rules : String
  knowledge : String
  specializedActions : String
  guidelines : String
deriving DecidableEq

/-- Embedding of `parse_identity`. -/
def parse_identity (identity_text : String) : IdentityParts :=
  ⟨extractTag identity_text ("Role"), extractTag identity_text ("Goal"),
    extractTag identity_text ("Rules"), extractTag identity_text ("Knowledge"),
    extractTag identity_text ("SpecializedActions"), extractTag identity_text ("Guidelines")⟩

/-! Developer-name heuristics.  The first two patterns are
`created by\s+([A-Za-z][A-Za-z .,'-]{1,60})` and the same with
`developed by`; the third is `\bby\s+([A-Za-z][A-Za-z .,'-]{1,60})\b`.
The group is greedy; for the first two patterns nothing follows it, so it
simply takes the longest munch (at most 61 characters); for the third the
trailing word boundary shrinks the greedy munch until the boundary holds. -/

def isAsciiLetter (c : Char) : Bool :=
  ('A' ≤ c && c ≤ 'Z') || ('a' ≤ c && c ≤ 'z')

/-- Character class `[A-Za-z .,'-]`. -/
def isNameChar (c : Char) : Bool :=
  isAsciiLetter c || c = ' ' || c = '.' || c = ',' || c = Char.ofNat 39 || c = '-'

/-- Match `\s+([A-Za-z][A-Za-z .,'-]{1,60})` at the head (group needs the
leading letter plus at least one more class character). -/
def captureName : List Char → Option (List Char)
  | [] => none
  | c :: rest =>
    if pyIsSpace c then
      match rest.dropWhile pyIsSpace with
      | [] => none
      | d :: ds =>
        if isAsciiLetter d then
          match (ds.takeWhile isNameChar).take 60 with
          | [] => none
          | e :: es => some (d :: e :: es)
        else none
    else none

/-- Leftmost-match scan for `kw\s+([A-Za-z][A-Za-z .,'-]{1,60})`. -/
def searchKeyword (kw : List Char) : List Char → Option (List Char)
  | [] => none
  | c :: rest =>
    if ciStarts kw (c :: rest) then
      match captureName (List.drop kw.length (c :: rest)) with
      | some g => some g
      | none => searchKeyword kw rest
    else searchKeyword kw rest

/-- Regex `\w`. -/
def isWordChar (c : Char) : Bool := isAsciiLetter c || c.isDigit || c = '_'

/-- Word boundary between a last matched character and the next character
(end of input counts as a non-word position). -/
def boundaryOK (last : Char) (next : Option Char) : Bool :=
  isWordChar last != (match next with | some d => isWordChar d | none => false)

/-- Backtrack the greedy `{1,60}` munch from length `k` down to 1 until the
trailing `\b` holds. -/
def shrinkName (first : Char) (munch after : List Char) : Nat → Option (List Char)
  | 0 => none
  | k + 1 =>
    if k + 1 ≤ munch.length then
      match munch.get? k with
      | some last =>
        if boundaryOK last (if k + 1 < munch.length then munch.get? (k + 1) else after.head?) then
          some (first :: munch.take (k + 1))
        else shrinkName first munch after k
      | none => shrinkName first munch after k
    else shrinkName first munch after k

/-- Match `\s+([A-Za-z][A-Za-z .,'-]{1,60})\b` at the head. -/
def captureByName : List Char → Option (List Char)
  | [] => none
  | c :: rest =>
    if pyIsSpace c then
      match rest.dropWhile pyIsSpace with
      | [] => none
      | d :: ds =>
        if isAsciiLetter d then
          shrinkName d ((ds.takeWhile isNameChar).take 60)
            (ds.drop ((ds.takeWhile isNameChar).take 60).length)
            ((ds.takeWhile isNameChar).take 60).length
        else none
    else none

/-- Leftmost-match scan for `\bby\s+([A-Za-z][A-Za-z .,'-]{1,60})\b`; the
flag tracks whether the previous character was a word character. -/
def searchByKeyword : Bool → List Char → Option (List Char)
  | _, [] => none
  | prevW, c :: rest =>
    if !prevW && ciStarts (("by").data) (c :: rest) then
      match captureByName (List.drop 2 (c :: rest)) with
      | some g => some g
      | none => searchByKeyword (isWordChar c) rest
    else searchByKeyword (isWordChar c) rest

/-- Python `s.strip(".")` (both ends, as `str.strip` with an argument does). -/
def pyStripDots (l : List Char) : List Char :=
  ((l.dropWhile fun c => c == Char.ofNat 46).reverse.dropWhile fun c => c == Char.ofNat 46).reverse

/-- Embedding of `extract_developer_name`: the three patterns are tried in
order over the `<Role>` section; the first match wins and is stripped of
whitespace and then of dots; otherwise the fixed sentinel is returned. -/
def extract_developer_name (identity_text : String) : String :=
  match searchKeyword (("created by").data) (extractTag identity_text ("Role")).data with
  | some g => String.mk (pyStripDots (pyStripWS g))
  | none =>
    match searchKeyword (("developed by").data) (extractTag identity_text ("Role")).data with
    | some g => String.mk (pyStripDots (pyStripWS g))
    | none =>
      match searchByKeyword false (extractTag identity_text ("Role")).data with
      | some g => String.mk (pyStripDots (pyStripWS g))
      | none => "Not specified in identity.txt"

/-- C3: the three heuristic patterns are tried in their fixed order over
the role section and the first matching pattern wins: whenever "created by"
matches, its capturing group (trimmed of surrounding whitespace and dots)
is returned regardless of the later patterns; when it does not match but
"developed by" does, that group is returned; when only the bare
"by <Name>" pattern matches, that group is returned; and when none
matches, the fixed sentinel is returned. -/
theorem claim3_ordered_patterns (text : String) (g : List Char) :
    (searchKeyword (("created by").data) (extractTag text ("Role")).data = some g →
        extract_developer_name text = String.mk (pyStripDots (pyStripWS g))) ∧
      (searchKeyword (("created by").data) (extractTag text ("Role")).data = none →
        searchKeyword (("developed by").data) (extractTag text ("Role")).data = some g →
        extract_developer_name text = String.mk (pyStripDots (pyStripWS g))) ∧
      (searchKeyword (("created by").data) (extractTag text ("Role")).data = none →
        searchKeyword (("developed by").data) (extractTag text ("Role")).data = none →
        searchByKeyword false (extractTag text ("Role")).data = some g →
        extract_developer_name text = String.mk (pyStripDots (pyStripWS g))) ∧
      (searchKeyword (("created by").data) (extractTag text ("Role")).data = none →
        searchKeyword (("developed by").data) (extractTag text ("Role")).data = none →
        searchByKeyword false (extractTag text ("Role")).data = none →
        extract_developer_name text = "Not specified in identity.txt") := by
  refine ⟨?_, ?_, ?_, ?_⟩
  · intro h1
    unfold extract_developer_name
    rw [h1]
  · intro h1 h2
    unfold extract_developer_name
    rw [h1, h2]
  · intro h1 h2 h3
    unfold extract_developer_name
    rw [h1, h2, h3]
  · intro h1 h2 h3
    unfold extract_developer_name
    rw [h1, h2, h3]

theorem claim3_witness :
    searchKeyword (("created by").data)
        (extractTag ("<Role>Critique, developed by John Smith</Role>") ("Role")).data = none ∧
      searchKeyword (("developed by").data)
        (extractTag ("<Role>Critique, developed by John Smith</Role>") ("Role")).data =
        some (("John Smith").data) ∧
      extract_developer_name ("<Role>Critique, created by Jane Doe</Role>") = "Jane Doe" ∧
      extract_developer_name ("<Role>Critique, developed by John Smith</Role>") = "John Smith" ∧
      extract_developer_name ("<Role>Critique, a studio tool by Ada Lovelace</Role>") =
        "Ada Lovelace" ∧
      extract_developer_name ("<Role>Critique assistant</Role>") =
        "Not specified in identity.txt" := by
  refine ⟨by decide, by decide, ?_, ?_, ?_, ?_⟩
  · rw [(claim3_ordered_patterns ("<Role>Critique, created by Jane Doe</Role>")
        (("Jane Doe").data)).1 (by decide)]
    decide
  · rw [(claim3_ordered_patterns ("<Role>Critique, developed by John Smith</Role>")
        (("John Smith").data)).2.1 (by decide) (by decide)]
    decide
  · rw [(claim3_ordered_patterns ("<Role>Critique, a studio tool by Ada Lovelace</Role>")
        (("Ada Lovelace").data)).2.2.1 (by decide) (by decide) (by decide)]
    decide
  · exact (claim3_ordered_patterns ("<Role>Critique assistant</Role>") ([])).2.2.2
      (by decide) (by decide) (by decide)

/-- C4: for every identity text in which the role-tag pattern does not
match, `extract_developer_name` returns the fixed sentinel (and, being a
total function, never throws). -/
theorem claim4_no_role_sentinel (text : String)
    (h : searchTagAux (("<Role>").data) (("</Role>").data) text.data = none) :
    extract_developer_name text = "Not specified in identity.txt" := by
  have hrole : extractTag text ("Role") = "" := by
    unfold extractTag
    rw [show (("<" ++ "Role" ++ ">" : String)).data = (("<Role>" : String)).data from by decide,
      show (("</" ++ "Role" ++ ">" : String)).data = (("</Role>" : String)).data from by decide, h]
  unfold extract_developer_name
  rw [hrole]
  decide

theorem claim4_witness :
    searchTagAux (("<Role>").data) (("</Role>").data) (("just plain text, no tags").data) = none ∧
      extract_developer_name ("just plain text, no tags") = "Not specified in identity.txt" :=
  ⟨by decide, claim4_no_role_sentinel ("just plain text, no tags") (by decide)⟩

/-- Helper: an unmatched tag yields the empty section. -/
theorem extractTag_none {text tag otag ctag : String}
    (ho : (("<" ++ tag ++ ">" : String)).data = otag.data)
    (hc : (("</" ++ tag ++ ">" : String)).data = ctag.data)
    (h : searchTagAux otag.data ctag.data text.data = none) :
    extractTag text tag = "" := by
  unfold extractTag
  rw [ho, hc, h]

/-- C5: `parse_identity` extracts each named tagged section with
case-insensitive, non-greedy delimited-region matching; an absent or
unmatched tag yields the empty string for that section and is never an
error (the function is total).  The last two conjuncts exhibit the
case-insensitive and non-greedy behaviour on concrete inputs. -/
theorem claim5_parse_identity (text : String) :
    (searchTagAux (("<Role>").data) (("</Role>").data) text.data = none →
        (parse_identity text).role = "") ∧
      (searchTagAux (("<Goal>").data) (("</Goal>").data) text.data = none →
        (parse_identity text).goal = "") ∧
      (searchTagAux (("<Rules>").data) (("</Rules>").data) text.data = none →
        (parse_identity text).rules = "") ∧
      (searchTagAux (("<Knowledge>").data) (("</Knowledge>").data) text.data = none →
        (parse_identity text).knowledge = "") ∧
      (searchTagAux (("<SpecializedActions>").data) (("</SpecializedActions>").data) text.data =
          none → (parse_identity text).specializedActions = "") ∧
      (searchTagAux (("<Guidelines>").data) (("</Guidelines>").data) text.data = none →
        (parse_identity text).guidelines = "") ∧
      (parse_identity ("<ROLE>x</role>")).role = "x" ∧
      (parse_identity ("<Goal>a</Goal>b</Goal>")).goal = "a" :=
  ⟨fun h => extractTag_none (by decide) (by decide) h,
    fun h => extractTag_none (by decide) (by decide) h,
    fun h => extractTag_none (by decide) (by decide) h,
    fun h => extractTag_none (by decide) (by decide) h,
    fun h => extractTag_none (by decide) (by decide) h,
    fun h => extractTag_none (by decide) (by decide) h,
    by decide, by decide⟩

theorem claim5_witness :
    searchTagAux (("<Role>").data) (("</Role>").data) (("no tags at all").data) = none ∧
      (parse_identity ("no tags at all")).role = "" :=
  ⟨by decide, (claim5_parse_identity ("no tags at all")).1 (by decide)⟩

/-! ## Structured critique prompt (app.py lines 113-158)

The f-string template of `build_structured_prompt`, transcribed literally
and split at the interpolation holes and at the section headings. -/

/-- Embedding of `build_structured_prompt identity_context form_data`. -/
def build_structured_prompt (identity_context : String) (fd : FormData) : String :=
  "SYSTEM IDENTITY & GUIDELINES:\n" ++ identity_context ++
    "\n\nTASK:\nYou are Critique. Provide a reflective design critique that strengthens the user's judgment.\nFollow the Rules and Guidelines strictly:\n- Do NOT use evaluative language (avoid \"good/bad/better/worse\").\n- Do NOT prescribe final solutions. Offer lenses, questions, tradeoffs, and directions.\n- Prioritize questions over statements.\n- Preserve user authorship: the user decides.\n\nUSER CONTEXT (structured intake):\n" ++
    "Design stage: " ++ fd.stage ++
    "\nArtifact type: " ++ fd.artifact ++
    "\nAudience/users: " ++ fd.audience ++
    "\nPrimary goal of the work: " ++ fd.goal ++
    "\nKey constraints: " ++ fd.constraints ++
    "\nWhat the user wants critique on: " ++ fd.focus ++
    "\nWork description (what exists so far):\n" ++ fd.work ++
    "\n\nOUTPUT FORMAT (Markdown):\nUse exactly these sections and headings:\n\n" ++
    "## Intent check" ++
    "\n(2–4 bullets: what you think the user is aiming for, framed as hypotheses)\n\n" ++
    "## Reflective questions" ++
    "\n(8–12 questions, grouped if helpful)\n\n" ++
    "## Lenses to apply" ++
    "\n(3–5 lenses: heuristics, accessibility, UX principles, ethics/emotion; frame each as a lens)\n\n" ++
    "## Tradeoffs worth naming" ++
    "\n(3–6 tradeoffs, neutral framing)\n\n" ++
    "## Next iteration directions" ++
    "\n(3–5 directions framed as experiments, not fixes)\n\n" ++
    "## What I’d ask you next" ++
    "\n(3–5 short questions to continue the critique dialogue)\n"

/-- The part of the template before the first heading (proof helper). -/
def bspPre (identity_context : String) (fd : FormData) : String :=
  "SYSTEM IDENTITY & GUIDELINES:\n" ++ identity_context ++
    "\n\nTASK:\nYou are Critique. Provide a reflective design critique that strengthens the user's judgment.\nFollow the Rules and Guidelines strictly:\n- Do NOT use evaluative language (avoid \"good/bad/better/worse\").\n- Do NOT prescribe final solutions. Offer lenses, questions, tradeoffs, and directions.\n- Prioritize questions over statements.\n- Preserve user authorship: the user decides.\n\nUSER CONTEXT (structured intake):\n" ++
    ("Design stage: " ++ fd.stage) ++
    "\nArtifact type: " ++ fd.artifact ++
    "\nAudience/users: " ++ fd.audience ++
    "\nPrimary goal of the work: " ++ fd.goal ++
    "\nKey constraints: " ++ fd.constraints ++
    "\nWhat the user wants critique on: " ++ fd.focus ++
    "\nWork description (what exists so far):\n" ++ fd.work ++
    "\n\nOUTPUT FORMAT (Markdown):\nUse exactly these sections and headings:\n\n"

/-- The part of the template from the first heading on (proof helper). -/
def bspTail : String :=
  "## Intent check" ++
    "\n(2–4 bullets: what you think the user is aiming for, framed as hypotheses)\n\n" ++
    "## Reflective questions" ++
    "\n(8–12 questions, grouped if helpful)\n\n" ++
    "## Lenses to apply" ++
    "\n(3–5 lenses: heuristics, accessibility, UX principles, ethics/emotion; frame each as a lens)\n\n" ++
    "## Tradeoffs worth naming" ++
    "\n(3–6 tradeoffs, neutral framing)\n\n" ++
    "## Next iteration directions" ++
    "\n(3–5 directions framed as experiments, not fixes)\n\n" ++
    "## What I’d ask you next" ++
    "\n(3–5 short questions to continue the critique dialogue)\n"

theorem strData_append (a b : String) : (a ++ b).data = a.data ++ b.data := rfl

theorem bsp_split (identity_context : String) (fd : FormData) :
    build_structured_prompt identity_context fd = bspPre identity_context fd ++ bspTail := by
  simp only [build_structured_prompt, bspPre, bspTail, strAssoc]

/-- Number of (possibly overlapping) occurrences of `p` in a string. -/
def countOcc (p : List Char) : List Char → Nat
  | [] => 0
  | c :: rest => (if p.isPrefixOf (c :: rest) then 1 else 0) + countOcc p rest

/-- No `'#'` occurs in the string. -/
def noHash (s : String) : Bool := s.data.all fun c => c != '#'

/-- Hash-freeness of all interpolated inputs of the critique template. -/
def promptHashFree (identity_context : String) (fd : FormData) : Bool :=
  noHash identity_context &&
    (noHash fd.stage &&
      (noHash fd.artifact &&
        (noHash fd.audience &&
          (noHash fd.goal && (noHash fd.constraints && (noHash fd.focus && noHash fd.work))))))

theorem noHash_append (a b : String) : noHash (a ++ b) = (noHash a && noHash b) := by
  simp [noHash, strData_append, List.all_append]

/-- Occurrences of a pattern starting with `'#'` cannot begin inside a
hash-free prefix. -/
theorem countOcc_append_nohash (p x r : List Char) (hp : p.head? = some '#')
    (hx : x.all (fun c => c != '#') = true) : countOcc p (x ++ r) = countOcc p r := by
  induction x with
  | nil => rfl
  | cons c cs ih =>
    simp only [List.all_cons, Bool.and_eq_true] at hx
    have hc : c ≠ '#' := by simpa using hx.1
    cases p with
    | nil => simp at hp
    | cons a as =>
      have ha : a = '#' := by simpa using hp
      subst ha
      have hb : ((('#' : Char)) == c) = false := beq_eq_false_iff_ne.mpr fun e => hc e.symm
      have hfalse : ('#' :: as).isPrefixOf (c :: (cs ++ r)) = false := by
        show ((('#' : Char) == c) && as.isPrefixOf (cs ++ r)) = false
        rw [hb]
        rfl
      show (if ('#' :: as).isPrefixOf (c :: (cs ++ r)) then 1 else 0) +
          countOcc ('#' :: as) (cs ++ r) = countOcc ('#' :: as) r
      rw [hfalse, ih hx.2]
      simp

/-- C1 (amended): for every identity context and intake record, the
structured prompt contains the label-plus-stage line and every field value
verbatim, and contains the six required output-section headings in the
fixed order; when additionally the identity context and all field values
are free of `'#'` (so no input can inject a Markdown heading), each heading
occurs exactly once. -/
theorem claim1_amended (identity_context : String) (fd : FormData) :
    strContains (build_structured_prompt identity_context fd)
        ("Design stage: " ++ fd.stage) ∧
      strContains (build_structured_prompt identity_context fd) fd.stage ∧
      strContains (build_structured_prompt identity_context fd) fd.artifact ∧
      strContains (build_structured_prompt identity_context fd) fd.audience ∧
      strContains (build_structured_prompt identity_context fd) fd.goal ∧
      strContains (build_structured_prompt identity_context fd) fd.constraints ∧
      strContains (build_structured_prompt identity_context fd) fd.focus ∧
      strContains (build_structured_prompt identity_context fd) fd.work ∧
      (∃ g0 g1 g2 g3 g4 g5 g6 : String,
        build_structured_prompt identity_context fd =
          g0 ++ "## Intent check" ++ g1 ++ "## Reflective questions" ++ g2 ++
            "## Lenses to apply" ++ g3 ++ "## Tradeoffs worth naming" ++ g4 ++
            "## Next iteration directions" ++ g5 ++ "## What I’d ask you next" ++ g6) ∧
      (promptHashFree identity_context fd = true →
        countOcc ((("## Intent check" : String)).data)
            (build_structured_prompt identity_context fd).data = 1 ∧
          countOcc ((("## Reflective questions" : String)).data)
            (build_structured_prompt identity_context fd).data = 1 ∧
          countOcc ((("## Lenses to apply" : String)).data)
            (build_structured_prompt identity_context fd).data = 1 ∧
          countOcc ((("## Tradeoffs worth naming" : String)).data)
            (build_structured_prompt identity_context fd).data = 1 ∧
          countOcc ((("## Next iteration directions" : String)).data)
            (build_structured_prompt identity_context fd).data = 1 ∧
          countOcc ((("## What I’d ask you next" : String)).data)
            (build_structured_prompt identity_context fd).data = 1) := by
  refine ⟨?_, ?_, ?_, ?_, ?_, ?_, ?_, ?_, ?_, ?_⟩
  · rw [bsp_split]
    apply strContains_left
    simp only [bspPre]
    repeat
      first
      | exact strContains_right _ (strContains_self _)
      | exact strContains_right _ (strContains_right _ (strContains_self _))
      | apply strContains_left
  · rw [bsp_split]
    apply strContains_left
    simp only [bspPre]
    repeat
      first
      | exact strContains_right _ (strContains_self _)
      | exact strContains_right _ (strContains_right _ (strContains_self _))
      | apply strContains_left
  · rw [bsp_split]
    apply strContains_left
    simp only [bspPre]
    repeat
      first
      | exact strContains_right _ (strContains_self _)
      | exact strContains_right _ (strContains_right _ (strContains_self _))
      | apply strContains_left
  · rw [bsp_split]
    apply strContains_left
    simp only [bspPre]
    repeat
      first
      | exact strContains_right _ (strContains_self _)
      | exact strContains_right _ (strContains_right _ (strContains_self _))
      | apply strContains_left
  · rw [bsp_split]
    apply strContains_left
    simp only [bspPre]
    repeat
      first
      | exact strContains_right _ (strContains_self _)
      | exact strContains_right _ (strContains_right _ (strContains_self _))
      | apply strContains_left
  · rw [bsp_split]
    apply strContains_left
    simp only [bspPre]
    repeat
      first
      | exact strContains_right _ (strContains_self _)
      | exact strContains_right _ (strContains_right _ (strContains_self _))
      | apply strContains_left
  · rw [bsp_split]
    apply strContains_left
    simp only [bspPre]
    repeat
      first
      | exact strContains_right _ (strContains_self _)
      | exact strContains_right _ (strContains_right _ (strContains_self _))
      | apply strContains_left
  · rw [bsp_split]
    apply strContains_left
    simp only [bspPre]
    repeat
      first
      | exact strContains_right _ (strContains_self _)
      | exact strContains_right _ (strContains_right _ (strContains_self _))
      | apply strContains_left
  · refine ⟨bspPre identity_context fd,
      "\n(2–4 bullets: what you think the user is aiming for, framed as hypotheses)\n\n",
      "\n(8–12 questions, grouped if helpful)\n\n",
      "\n(3–5 lenses: heuristics, accessibility, UX principles, ethics/emotion; frame each as a lens)\n\n",
      "\n(3–6 tradeoffs, neutral framing)\n\n",
      "\n(3–5 directions framed as experiments, not fixes)\n\n",
      "\n(3–5 short questions to continue the critique dialogue)\n", ?_⟩
    rw [bsp_split]
    simp only [bspTail, strAssoc]
  · intro hh
    simp only [promptHashFree, Bool.and_eq_true] at hh
    obtain ⟨h1, h2, h3, h4, h5, h6, h7, h8⟩ := hh
    have hpreNoHash : ((bspPre identity_context fd).data.all fun c => c != '#') = true := by
      have : noHash (bspPre identity_context fd) = true := by
        simp only [bspPre, noHash_append, h1, h2, h3, h4, h5, h6, h7, h8]
        decide
      simpa [noHash] using this
    refine ⟨?_, ?_, ?_, ?_, ?_, ?_⟩
    · rw [bsp_split, strData_append,
        countOcc_append_nohash ((("## Intent check" : String)).data)
          (bspPre identity_context fd).data bspTail.data (by decide) hpreNoHash]
      decide
    · rw [bsp_split, strData_append,
        countOcc_append_nohash ((("## Reflective questions" : String)).data)
          (bspPre identity_context fd).data bspTail.data (by decide) hpreNoHash]
      decide
    · rw [bsp_split, strData_append,
        countOcc_append_nohash ((("## Lenses to apply" : String)).data)
          (bspPre identity_context fd).data bspTail.data (by decide) hpreNoHash]
      decide
    · rw [bsp_split, strData_append,
        countOcc_append_nohash ((("## Tradeoffs worth naming" : String)).data)
          (bspPre identity_context fd).data bspTail.data (by decide) hpreNoHash]
      decide
    · rw [bsp_split, strData_append,
        countOcc_append_nohash ((("## Next iteration directions" : String)).data)
          (bspPre identity_context fd).data bspTail.data (by decide) hpreNoHash]
      decide
    · rw [bsp_split, strData_append,
        countOcc_append_nohash ((("## What I’d ask you next" : String)).data)
          (bspPre identity_context fd).data bspTail.data (by decide) hpreNoHash]
      decide

/-- Intake whose work description itself contains a heading line. -/
def fdInjected : FormData := ⟨"", "", "", "", "", "", "## Intent check"⟩

/-- C1 (counterexample to the claim as stated): the headings do not occur
exactly once for *every* intake record — a field value containing a heading
introduces a second occurrence. -/
theorem claim1_counterexample :
    ¬ ∀ (identity_context : String) (fd : FormData),
        countOcc ((("## Intent check" : String)).data)
          (build_structured_prompt identity_context fd).data = 1 := by
  intro h
  exact absurd (h ("") fdInjected) (by decide)

/-- Intake of the spec scenario (stage "Early ideation", work "A signup
screen with password rules"). -/
def fdExample : FormData :=
  ⟨"Early ideation", "App concept / feature", "Design students submitting project pitches",
    "Help students get reflective critique quickly", "keep responses structured",
    "How to structure the critique so it stays reflective",
    "A signup screen with password rules"⟩

theorem claim1_witness :
    promptHashFree ("You are Critique, a reflective critique partner.") fdExample = true ∧
      strContains
        (build_structured_prompt ("You are Critique, a reflective critique partner.") fdExample)
        ("Design stage: " ++ "Early ideation") ∧
      countOcc ((("## Intent check" : String)).data)
        (build_structured_prompt ("You are Critique, a reflective critique partner.")
            fdExample).data = 1 :=
  ⟨by decide,
    (claim1_amended ("You are Critique, a reflective critique partner.") fdExample).1,
    ((claim1_amended ("You are Critique, a reflective critique partner.")
        fdExample).2.2.2.2.2.2.2.2.2 (by decide)).1⟩

end Critique
